import Mathlib

/-!
Verification of the auth-sdk repository (a React authentication SDK scaffold).

Shallow embedding of the source components:
  * `AuthContext.tsx` (README §5): the provider's session state (`user`),
    `login`, `logout`, and the `useAuth` context hook.
  * `hooks/useAuth.ts`: the `useAuthAPI` facade.
  * `components/LoginForm.tsx` (README §7): form-local state and
    `handleSubmit`.
  * `index.ts`: the module export surface.

JavaScript semantics captured explicitly:
  * `user` has type `string | null`, embedded as `Option String`.
  * `!!user` is JS double-negation coercion: both `null` and the empty
    string are falsy.
  * `login` is an `async` function whose body cannot throw, so the
    returned promise always resolves; promises are embedded as
    `Except String (result)`, with `.error` for rejection.
-/

/-- The provider's session state: the single `user : string | null` scalar
held by `useState` in `AuthProvider`. -/
structure AuthState where
  user : Option String
deriving Repr, DecidableEq

/-- `useState<string | null>(null)`: the session starts absent on mount. -/
def AuthProvider.initialState : AuthState := ⟨none⟩

/-- `login = async (username, password) => { setUser(username); }`.
The body performs exactly one state change, `setUser(username)`, ignores
`password`, cannot throw, and the promise resolves with `undefined`. -/
def login (username _password : String) (_s : AuthState) :
    Except String (AuthState × Unit) :=
  Except.ok (⟨some username⟩, ())

/-- `logout = () => setUser(null)`. -/
def logout (_s : AuthState) : AuthState := ⟨none⟩

/-- `useAuth`: reads the ambient context; throws
"useAuth must be used within an AuthProvider" when no provider is mounted
(`useContext` returned `undefined`), otherwise returns the context value. -/
def useAuth (ctx : Option AuthState) : Except String AuthState :=
  match ctx with
  | none => Except.error "useAuth must be used within an AuthProvider"
  | some c => Except.ok c

/-- JS truthiness coercion `!!x` on a `string | null` value:
`null` and the empty string are falsy, every other string is truthy. -/
def jsTruthy : Option String → Bool
  | none => false
  | some s => s != ""

/-- The record returned by `useAuthAPI` (the `login`/`logout` members are
the provider's functions, passed through unchanged; the data fields are
`isAuthenticated` and `user`). -/
structure AuthAPI where
  isAuthenticated : Bool
  user : Option String
deriving Repr, DecidableEq

/-- `useAuthAPI`: calls `useAuth()` (so it throws the same error outside a
provider) and re-projects its fields, computing
`isAuthenticated: !!user`. -/
def useAuthAPI (ctx : Option AuthState) : Except String AuthAPI :=
  (useAuth ctx).map fun c => ⟨jsTruthy c.user, c.user⟩

/-- States of the provider reachable through its operations: the initial
mount state, followed by any sequence of `login` and `logout` calls. -/
inductive Reachable : AuthState → Prop
  | init : Reachable AuthProvider.initialState
  | do_login (u p : String) {s s2 : AuthState} (h : Reachable s)
      (h2 : login u p s = Except.ok (s2, ())) : Reachable s2
  | do_logout {s : AuthState} (h : Reachable s) : Reachable (logout s)

/-- The `LoginForm` component's local state: the two controlled input
values held by `useState('')`. -/
structure LoginFormState where
  username : String
  password : String
deriving Repr, DecidableEq

/-- Both form fields start as the empty string. -/
def LoginForm.initialState : LoginFormState := ⟨"", ""⟩

/-- `onChange` handler of the username input: `setUsername(e.target.value)`. -/
def onUsernameChange (v : String) (f : LoginFormState) : LoginFormState :=
  { f with username := v }

/-- `onChange` handler of the password input: `setPassword(e.target.value)`. -/
def onPasswordChange (v : String) (f : LoginFormState) : LoginFormState :=
  { f with password := v }

/-- A form submission event; `defaultPrevented` records whether
`preventDefault()` has been called (the browser navigates only if not). -/
structure FormEvent where
  defaultPrevented : Bool
deriving Repr, DecidableEq

/-- `e.preventDefault()`. -/
def preventDefault (e : FormEvent) : FormEvent :=
  { e with defaultPrevented := true }

/-- `handleSubmit = async (e) => { e.preventDefault(); await login(username, password); }`.
Returns the event after `preventDefault`, the trace of `login` calls made
(one call, with the two form fields verbatim), and the awaited result of
that call on the current auth state. -/
def handleSubmit (f : LoginFormState) (e : FormEvent) (s : AuthState) :
    FormEvent × List (String × String) × Except String (AuthState × Unit) :=
  (preventDefault e, [(f.username, f.password)], login f.username f.password s)

/-- `index.ts`: the package's named export bindings, in source order. -/
def moduleExports : List String :=
  ["AuthProvider", "useAuth", "LoginForm", "useAuthAPI"]

/-- C1: the claim as universally stated is false at `u = ""`: JS `!!""` is
falsy, so after `login("", "pw")` the facade reports `user == ""` but
`isAuthenticated == false`. -/
theorem C1_counterexample :
    login "" "pw" AuthProvider.initialState = Except.ok (⟨some ""⟩, ()) ∧
    useAuthAPI (some ⟨some ""⟩) = Except.ok ⟨false, some ""⟩ ∧
    ¬ (∀ u p : String, ∀ s : AuthState, ∃ s2 api,
        login u p s = Except.ok (s2, ()) ∧
        useAuthAPI (some s2) = Except.ok api ∧
        api.user = some u ∧ api.isAuthenticated = true) := by
  refine ⟨rfl, rfl, fun h => ?_⟩
  obtain ⟨s2, api, h1, h2, h3, h4⟩ := h "" "pw" AuthProvider.initialState
  have hs2 : s2 = ⟨some ""⟩ := by
    cases h1
    rfl
  subst hs2
  have hapi : api = ⟨false, some ""⟩ := by
    have := h2.symm.trans (rfl : useAuthAPI (some ⟨some ""⟩) = Except.ok ⟨false, some ""⟩)
    cases this
    rfl
  subst hapi
  exact Bool.false_ne_true h4

/-- C1 (amended): for every nonempty username `u` and every password `p`,
calling `login(u, p)` and then reading the facade yields `user == u` and
`isAuthenticated == true`. -/
theorem C1_login_then_read (u p : String) (s : AuthState) (h : u ≠ "") :
    ∃ s2 api, login u p s = Except.ok (s2, ()) ∧
      useAuthAPI (some s2) = Except.ok api ∧
      api.user = some u ∧ api.isAuthenticated = true := by
  refine ⟨⟨some u⟩, ⟨jsTruthy (some u), some u⟩, rfl, rfl, rfl, ?_⟩
  simp [jsTruthy, h]

/-- C1 witness: the amended theorem applied at `u = "alice"`, `p = "pw1"`
from the initial state. -/
theorem C1_witness :
    "alice" ≠ "" ∧
    ∃ s2 api, login "alice" "pw1" AuthProvider.initialState = Except.ok (s2, ()) ∧
      useAuthAPI (some s2) = Except.ok api ∧
      api.user = some "alice" ∧ api.isAuthenticated = true :=
  ⟨by decide, C1_login_then_read "alice" "pw1" AuthProvider.initialState (by decide)⟩

/-- C2: the claimed invariant is false at the reachable state
`user = some ""` (reached by `login("", "p")` from the initial state):
there `user` is not null, yet `isAuthenticated` is `false` because JS
`!!""` is falsy. -/
theorem C2_counterexample :
    Reachable ⟨some ""⟩ ∧
    useAuthAPI (some ⟨some ""⟩) = Except.ok ⟨false, some ""⟩ ∧
    (some "" : Option String) ≠ none :=
  ⟨Reachable.do_login "" "p" Reachable.init rfl, rfl, by decide⟩

/-- C2 (amended): in every state, the facade's `isAuthenticated` is the JS
truthiness test of `user`: it is `true` iff `user` is present AND
nonempty. -/
theorem C2_isAuthenticated_truthiness (s : AuthState) :
    ∃ api, useAuthAPI (some s) = Except.ok api ∧
      (api.isAuthenticated = true ↔ ∃ u, s.user = some u ∧ u ≠ "") := by
  refine ⟨⟨jsTruthy s.user, s.user⟩, rfl, ?_⟩
  cases s with
  | mk user =>
    cases user with
    | none => simp [jsTruthy]
    | some v => simp [jsTruthy]

/-- C3: invoking either hook with no provider mounted yields the designated
missing-context error, and with a provider mounted (any state) neither hook
throws. -/
theorem C3_missing_context_error :
    useAuth none = Except.error "useAuth must be used within an AuthProvider" ∧
    useAuthAPI none = Except.error "useAuth must be used within an AuthProvider" ∧
    ∀ s : AuthState, (∃ c, useAuth (some s) = Except.ok c) ∧
      (∃ api, useAuthAPI (some s) = Except.ok api) :=
  ⟨rfl, rfl, fun s => ⟨⟨s, rfl⟩, ⟨⟨jsTruthy s.user, s.user⟩, rfl⟩⟩⟩

/-- C4: from any prior state, `logout` yields `user == null` and the facade
then reports `isAuthenticated == false`. -/
theorem C4_logout_clears (s : AuthState) :
    (logout s).user = none ∧
    useAuthAPI (some (logout s)) = Except.ok ⟨false, none⟩ :=
  ⟨rfl, rfl⟩

/-- C5: submitting the form with field values ("alice", "pw1") makes
exactly one `login` call, with exactly those two literal arguments, and
`preventDefault` is applied to the event. -/
theorem C5_submit_calls_login_once (e : FormEvent) (s : AuthState) :
    (handleSubmit ⟨"alice", "pw1"⟩ e s).1.defaultPrevented = true ∧
    (handleSubmit ⟨"alice", "pw1"⟩ e s).2.1 = [("alice", "pw1")] ∧
    (handleSubmit ⟨"alice", "pw1"⟩ e s).2.2 = login "alice" "pw1" s :=
  ⟨rfl, rfl, rfl⟩

/-- C6: `logout` is idempotent: calling it twice from any state leaves the
session state identical to calling it once. -/
theorem C6_logout_idempotent (s : AuthState) :
    logout (logout s) = logout s :=
  rfl

/-- C7: the claim is false: `index.ts` exports FOUR named bindings
(`AuthProvider`, `useAuth`, `LoginForm`, `useAuthAPI`), not three. -/
theorem C7_counterexample :
    moduleExports.length = 4 ∧ moduleExports.length ≠ 3 := by
  decide

/-- C7 (amended): the export surface consists of exactly four named
bindings: the provider component, the raw context hook, the form
component, and the facade hook. -/
theorem C7_export_surface :
    moduleExports = ["AuthProvider", "useAuth", "LoginForm", "useAuthAPI"] ∧
    moduleExports.length = 4 ∧ moduleExports.Nodup := by
  refine ⟨rfl, rfl, ?_⟩
  decide

/-- C8: the session is created absent on provider mount (`user = null`),
every `login(u, p)` call sets it to exactly the username string `u`, and
`logout` resets it to absent. -/
theorem C8_session_lifecycle :
    AuthProvider.initialState.user = none ∧
    (∀ (u p : String) (s : AuthState), login u p s = Except.ok (⟨some u⟩, ())) ∧
    (∀ s : AuthState, (logout s).user = none) :=
  ⟨rfl, fun _ _ _ => rfl, fun _ => rfl⟩

/-- C9: the password argument does not influence `login`: from the same
prior state, `login(u, p1)` and `login(u, p2)` produce identical resulting
states and identical resolved return values. -/
theorem C9_password_noninterference (u p1 p2 : String) (s : AuthState) :
    login u p1 s = login u p2 s :=
  rfl

/-- C10: `login` never fails: for every pair of string inputs and every
prior state the promise resolves (never rejects), and the entire resulting
state is `user := username` — the only state change performed. -/
theorem C10_login_total (u p : String) (s : AuthState) :
    login u p s = Except.ok (⟨some u⟩, ()) :=
  rfl
